import Mathlib

/-!
Formal model of the recurring-event occurrence engine of the
`weekly_calendar` repository (server variant), together with proofs about
its behaviour.

Conventions of the embedding:

* A JavaScript `Date` is modelled as an `Int`, the number of milliseconds
  since the Unix epoch.  The server clock is taken to be UTC, so the
  local-time accessors `getHours`, `getMinutes`, `getSeconds`, `getDay`
  and `date-fns`' `startOfDay` / `isSameDay` are the UTC ones; with no
  daylight-saving shifts, `setDate(getDate() + n)` adds exactly
  `n * 86400000` milliseconds.
* The Prisma `Event.recurrenceDays` column is a comma-separated string;
  the service always consumes it through
  `recurrenceDays && recurrenceDays.split(',').map(Number).includes(d)`,
  where the empty string is falsy.  It is therefore modelled as the
  parsed `List Int`, with the empty list playing the role of the falsy
  empty string.
* Database rows carry `Nat` identities; presentation-only columns
  (title, description, color, eventType, timezone, user) are omitted
  because no modelled function branches on them.
* Fallible controller flows are modelled as `Except String`, carrying
  the controller's error messages.
-/

/-- Milliseconds in one calendar day (no DST in the UTC model). -/
def dayMs : Int := 86400000

/-- Day number of the instant `t` (`/` on `Int` is Euclidean division,
which for the positive divisor `dayMs` is the floor division of the JS
calendar-day decomposition in UTC). -/
def epochDay (t : Int) : Int := t / dayMs

/-- `date-fns` `startOfDay` on the UTC clock: midnight of `t`'s day. -/
def dayStart (t : Int) : Int := epochDay t * dayMs

/-- JS `getDay()` in UTC: 0 = Sunday … 6 = Saturday.  The Unix epoch
(1970-01-01) was a Thursday, day index 4. -/
def getDayOfWeek (t : Int) : Int := (epochDay t + 4) % 7

/-- JS `getHours()` in UTC. -/
def hourOf (t : Int) : Int := (t / 3600000) % 24

/-- JS `getMinutes()`. -/
def minuteOf (t : Int) : Int := (t / 60000) % 60

/-- JS `getSeconds()`. -/
def secondOf (t : Int) : Int := (t / 1000) % 60

/-- `date-fns` `isSameDay` (and the manual year/month/day triple
comparison in `recurrenceUtils.generateOccurrences`): same UTC calendar
day. -/
def isSameDay (a b : Int) : Bool := epochDay a == epochDay b

/-- JS `d.setHours(h, m, s, 0)`: replace the time-of-day of `t`. -/
def setTimeOfDay (t h m s : Int) : Int :=
  dayStart t + h * 3600000 + m * 60000 + s * 1000

/-- One row of the Prisma `RecurrenceException` table (time columns
only). -/
structure RecurrenceException where
  id : Nat
  exceptionDate : Int
  isDeleted : Bool
  newStartTime : Option Int
  newEndTime : Option Int
deriving DecidableEq, Repr

/-- `recurrenceType` column values (`eventService.RecurrenceType`). -/
inductive RecurrenceType where
  | NONE
  | DAILY
  | WEEKLY
deriving DecidableEq, Repr

/-- One row of the Prisma `Event` table joined with its exceptions
(`EventWithExceptions` in `eventService.ts`), behavioural columns
only. -/
structure CalendarEvent where
  id : Nat
  startTime : Int
  endTime : Int
  isRecurring : Bool
  recurrenceType : RecurrenceType
  recurrenceDays : List Int
  exceptions : List RecurrenceException
deriving DecidableEq, Repr

/-- One element of the `EventOccurrence[]` result of the generator
(time/flag fields only). -/
structure EventOccurrence where
  originalEventId : Nat
  startTime : Int
  endTime : Int
  isException : Bool
  exceptionId : Option Nat
deriving DecidableEq, Repr

/-- `recurrenceDays && recurrenceDays.split(',').map(Number).includes(d)`:
the empty string is falsy, otherwise a membership test. -/
def weeklyDayMatch (days : List Int) (d : Int) : Bool :=
  !days.isEmpty && days.contains d

/-- The `shouldInclude` computation of one iteration of the loop in
`generateRecurringEventOccurrences` (eventService.ts lines 366-379). -/
def shouldIncludeDay (ev : CalendarEvent) (current : Int) : Bool :=
  match ev.recurrenceType with
  | .DAILY => true
  | .WEEKLY => weeklyDayMatch ev.recurrenceDays (getDayOfWeek current)
  | .NONE => false

/-- `occurrenceDate`: the candidate day `current` with the base event's
hour/minute/second re-applied and milliseconds zeroed
(eventService.ts lines 383-384). -/
def occurrenceStart (ev : CalendarEvent) (current : Int) : Int :=
  setTimeOfDay current (hourOf ev.startTime) (minuteOf ev.startTime) (secondOf ev.startTime)

/-- `durationMs = event.endTime.getTime() - event.startTime.getTime()`. -/
def durationMs (ev : CalendarEvent) : Int := ev.endTime - ev.startTime

/-- `event.exceptions.find((ex) => isSameDay(ex.exceptionDate, occurrenceDate))`. -/
def findDayException (exs : List RecurrenceException) (occDate : Int) :
    Option RecurrenceException :=
  exs.find? (fun ex => isSameDay ex.exceptionDate occDate)

/-- The body of one iteration of the day-scan loop of
`generateRecurringEventOccurrences` (eventService.ts lines 381-439):
the occurrences pushed for the candidate day `current` (zero or one). -/
def emitOccurrence (ev : CalendarEvent) (startDate endDate current : Int) :
    List EventOccurrence :=
  if shouldIncludeDay ev current then
    if startDate ≤ occurrenceStart ev current ∧ occurrenceStart ev current ≤ endDate then
      match findDayException ev.exceptions (occurrenceStart ev current) with
      | some ex =>
        if ex.isDeleted then []
        else
          match ex.newStartTime, ex.newEndTime with
          | some ns, some ne =>
            [{ originalEventId := ev.id, startTime := ns, endTime := ne,
               isException := true, exceptionId := some ex.id }]
          | _, _ => []
      | none =>
        [{ originalEventId := ev.id, startTime := occurrenceStart ev current,
           endTime := occurrenceStart ev current + durationMs ev,
           isException := false, exceptionId := none }]
    else []
  else []

/-- The day-scan loop `while (currentDate <= maxEndDate)` of
`generateRecurringEventOccurrences` (eventService.ts lines 365-443),
with the iteration count made explicit as `fuel`. -/
def genLoop (ev : CalendarEvent) (startDate endDate maxEnd : Int) :
    Int → Nat → List EventOccurrence
  | _, 0 => []
  | current, fuel + 1 =>
    if current ≤ maxEnd then
      emitOccurrence ev startDate endDate current ++
        genLoop ev startDate endDate maxEnd (current + dayMs) fuel
    else []

/-- Exact iteration count of the loop: one iteration per day from
`current` up to and including the last day `≤ maxEnd`. -/
def loopFuel (current maxEnd : Int) : Nat :=
  (maxEnd - current).toNat / 86400000 + 1

/-- `EventService.generateRecurringEventOccurrences`
(eventService.ts lines 333-446): expand one recurring event over
`[startDate, endDate]`, folding in its exceptions.  `currentDate` starts
at the event start, pulled forward to `startDate − 365` days when the
event began earlier; the scan is bounded by `endDate + 365` days. -/
def generateRecurringEventOccurrences (ev : CalendarEvent)
    (startDate endDate : Int) : List EventOccurrence :=
  if ev.recurrenceType == RecurrenceType.NONE || !ev.isRecurring then []
  else
    let checkFromDate := startDate - 365 * dayMs
    let current := if ev.startTime < checkFromDate then checkFromDate else ev.startTime
    let maxEnd := endDate + 365 * dayMs
    genLoop ev startDate endDate maxEnd current (loopFuel current maxEnd)

/-- `recurrenceUtils.eventsConflict` (recurrenceUtils.ts lines 192-205),
the predicate used by `EventService.checkEventConflicts`. -/
def eventsConflict (event1Start event1End event2Start event2End : Int) : Bool :=
  (event1Start ≥ event2Start && event1Start < event2End) ||
  (event1End > event2Start && event1End ≤ event2End) ||
  (event2Start ≥ event1Start && event2Start < event1End) ||
  (event2End > event1Start && event2End ≤ event1End)

/-- `dateUtils.doTimeRangesOverlap` (server dateUtils.ts lines 98-105). -/
def doTimeRangesOverlap (start1 end1 start2 end2 : Int) : Bool :=
  start1 < end2 && start2 < end1

/-- `EventService.isValidEventOccurrence` (eventService.ts lines
305-328): does `date` fall on a calendar day on which the event's rule
places an occurrence? -/
def isValidEventOccurrence (ev : CalendarEvent) (date : Int) : Bool :=
  if !ev.isRecurring || ev.recurrenceType == RecurrenceType.NONE then
    isSameDay ev.startTime date
  else if ev.recurrenceType == RecurrenceType.DAILY then
    decide (dayStart ev.startTime ≤ date)
  else if ev.recurrenceType == RecurrenceType.WEEKLY then
    weeklyDayMatch ev.recurrenceDays (getDayOfWeek date) &&
      decide (dayStart ev.startTime ≤ date)
  else false

/-- Create-event time validation (eventController.ts lines 325-327 /
72-74): reject unless the parsed end is strictly after the parsed
start. -/
def validateCreateTimes (parsedStart parsedEnd : Int) : Except String (Int × Int) :=
  if parsedEnd ≤ parsedStart then Except.error "End time must be after start time"
  else Except.ok (parsedStart, parsedEnd)

/-- Update-event time validation and merge (eventController.ts lines
410-424 and 455-459, identical in both controller variants): the
`end > start` check runs only when BOTH instants are supplied; the
persisted pair merges supplied instants over the stored ones. -/
def applyUpdateTimes (existingStart existingEnd : Int)
    (newStart newEnd : Option Int) : Except String (Int × Int) :=
  match newStart, newEnd with
  | some ns, some ne =>
    if ne ≤ ns then Except.error "End time must be after start time"
    else Except.ok (ns, ne)
  | some ns, none => Except.ok (ns, existingEnd)
  | none, some ne => Except.ok (existingStart, ne)
  | none, none => Except.ok (existingStart, existingEnd)

/-- Exception time validation (eventController.ts lines 218-232 /
530-544): a deletion ignores the supplied times; a reschedule requires
both times and `newEnd > newStart`. -/
def validateExceptionTimes (isDeleted : Bool) (newStart newEnd : Option Int) :
    Except String (Option Int × Option Int) :=
  if isDeleted then Except.ok (none, none)
  else
    match newStart, newEnd with
    | some ns, some ne =>
      if ne ≤ ns then Except.error "New end time must be after new start time"
      else Except.ok (some ns, some ne)
    | _, _ => Except.error "New start and end times are required for modified occurrences"

/-- `EventController.createEventException` of the owner-keyed controller
variant (eventController.ts lines 504-572): recurring check, time
checks, then the `isValidEventOccurrence` precondition before the row is
created. -/
def createExceptionChecked (ev : CalendarEvent) (date : Int) (isDeleted : Bool)
    (newStart newEnd : Option Int) : Except String RecurrenceException :=
  if !ev.isRecurring then Except.error "Cannot create exception for non-recurring event"
  else
    match validateExceptionTimes isDeleted newStart newEnd with
    | Except.error m => Except.error m
    | Except.ok (ps, pe) =>
      if isValidEventOccurrence ev date then
        Except.ok { id := 0, exceptionDate := date, isDeleted := isDeleted,
                    newStartTime := ps, newEndTime := pe }
      else Except.error "The specified date is not a valid occurrence of this recurring event"

/-- `EventController.createEventException` of the other controller
variant (eventController.ts lines 192-247): same flow but with NO
occurrence-validity precondition — the row is created for any date. -/
def createExceptionUnchecked (ev : CalendarEvent) (date : Int) (isDeleted : Bool)
    (newStart newEnd : Option Int) : Except String RecurrenceException :=
  if ev.recurrenceType == RecurrenceType.NONE then
    Except.error "Cannot create exception for non-recurring event"
  else
    match validateExceptionTimes isDeleted newStart newEnd with
    | Except.error m => Except.error m
    | Except.ok (ps, pe) =>
      Except.ok { id := 0, exceptionDate := date, isDeleted := isDeleted,
                  newStartTime := ps, newEndTime := pe }

/-! ## Concrete scenario inputs (spec §8)

Instants in milliseconds since the Unix epoch, UTC:
`1704067200000` = 2024-01-01T00:00Z (a Monday), `1704099600000` = 09:00Z
that day, `1706659200000` = 2024-01-31T00:00Z, `1704672000000` =
2024-01-08T00:00Z. -/

/-- Scenario A base event: weekly Mondays 09:00–10:00Z from
2024-01-01. -/
def mondayEvent : CalendarEvent :=
  { id := 1, startTime := 1704099600000, endTime := 1704103200000,
    isRecurring := true, recurrenceType := .WEEKLY, recurrenceDays := [1],
    exceptions := [] }

/-- Query window start: 2024-01-01T00:00Z. -/
def windowStartJan : Int := 1704067200000

/-- Query window end: 2024-01-31T00:00Z. -/
def windowEndJan : Int := 1706659200000

/-- Scenario B exception: delete the 2024-01-08 occurrence. -/
def deleteJan8Exception : RecurrenceException :=
  { id := 10, exceptionDate := 1704672000000, isDeleted := true,
    newStartTime := none, newEndTime := none }

/-- A reschedule exception moving the 2024-01-08 occurrence to
2024-03-09T14:40Z–15:40Z, far outside the January window. -/
def rescheduleJan8Exception : RecurrenceException :=
  { id := 11, exceptionDate := 1704672000000, isDeleted := false,
    newStartTime := some 1710000000000, newEndTime := some 1710003600000 }

/-- A non-deleted exception for 2024-01-08 whose `newStartTime` is
null. -/
def incompleteJan8Exception : RecurrenceException :=
  { id := 12, exceptionDate := 1704672000000, isDeleted := false,
    newStartTime := none, newEndTime := some 1704708000000 }

/-- A weekly event whose `recurrenceDays` set is empty. -/
def weeklyNoDaysEvent : CalendarEvent :=
  { id := 2, startTime := 1704099600000, endTime := 1704103200000,
    isRecurring := true, recurrenceType := .WEEKLY, recurrenceDays := [],
    exceptions := [] }

/-! ## Helper lemmas -/

theorem dayStart_le_self (t : Int) : dayStart t ≤ t := by
  simp only [dayStart, epochDay, dayMs]; omega

theorem dayStart_add_day (t : Int) : dayStart (t + dayMs) = dayStart t + dayMs := by
  simp only [dayStart, epochDay, dayMs]; omega

theorem occurrenceStart_lb (ev : CalendarEvent) (current : Int) :
    dayStart current ≤ occurrenceStart ev current := by
  simp only [occurrenceStart, setTimeOfDay, hourOf, minuteOf, secondOf]
  omega

theorem occurrenceStart_ub (ev : CalendarEvent) (current : Int) :
    occurrenceStart ev current < dayStart current + dayMs := by
  simp only [occurrenceStart, setTimeOfDay, hourOf, minuteOf, secondOf, dayMs]
  omega

@[simp] theorem shouldIncludeDay_set_exceptions (ev : CalendarEvent)
    (exs : List RecurrenceException) (current : Int) :
    shouldIncludeDay { ev with exceptions := exs } current = shouldIncludeDay ev current := rfl

@[simp] theorem occurrenceStart_set_exceptions (ev : CalendarEvent)
    (exs : List RecurrenceException) (current : Int) :
    occurrenceStart { ev with exceptions := exs } current = occurrenceStart ev current := rfl

@[simp] theorem durationMs_set_exceptions (ev : CalendarEvent)
    (exs : List RecurrenceException) :
    durationMs { ev with exceptions := exs } = durationMs ev := rfl

/-- Every element of the output of one loop iteration that is not an
exception override is the rule-computed occurrence of that day: its
start is the candidate day with the event's time-of-day, its end is
start plus the event duration, and its start passed the window test. -/
theorem emitOccurrence_regular {ev : CalendarEvent} {s e current : Int}
    {o : EventOccurrence} (h : o ∈ emitOccurrence ev s e current)
    (hex : o.isException = false) :
    o.startTime = occurrenceStart ev current ∧
      o.endTime = o.startTime + durationMs ev ∧ s ≤ o.startTime ∧ o.startTime ≤ e := by
  unfold emitOccurrence at h
  split at h
  · split at h
    · rename_i hwin
      split at h
      · split at h
        · simp at h
        · split at h
          · simp at h
            rw [h] at hex
            simp at hex
          · simp at h
      · simp at h
        rw [h]
        exact ⟨rfl, rfl, hwin.1, hwin.2⟩
    · simp at h
  · simp at h

/-- Loop invariant: every non-override occurrence produced from
candidate day `current` onward lies inside the query window, has the
event's duration, and starts no earlier than the midnight of
`current`. -/
theorem genLoop_regular_props (ev : CalendarEvent) (s e maxEnd : Int) :
    ∀ (fuel : Nat) (current : Int) (o : EventOccurrence),
      o ∈ genLoop ev s e maxEnd current fuel → o.isException = false →
      s ≤ o.startTime ∧ o.startTime ≤ e ∧ o.endTime = o.startTime + durationMs ev ∧
        dayStart current ≤ o.startTime := by
  intro fuel
  induction fuel with
  | zero => intro current o h _; simp [genLoop] at h
  | succ n ih =>
    intro current o h hex
    simp only [genLoop] at h
    split at h
    · rw [List.mem_append] at h
      rcases h with hmem | hmem
      · obtain ⟨h1, h2, h3, h4⟩ := emitOccurrence_regular hmem hex
        exact ⟨h3, h4, h2, h1 ▸ occurrenceStart_lb ev current⟩
      · obtain ⟨h1, h2, h3, h4⟩ := ih (current + dayMs) o hmem hex
        refine ⟨h1, h2, h3, ?_⟩
        have hd := dayStart_add_day current
        have hpos : (0:Int) < dayMs := by decide
        omega
    · simp at h

theorem pairwise_of_length_le_one {α : Type} {R : α → α → Prop} :
    ∀ {l : List α}, l.length ≤ 1 → l.Pairwise R
  | [], _ => List.Pairwise.nil
  | [_], _ => by simp
  | _ :: _ :: _, h => by simp at h

theorem emitOccurrence_length_le_one (ev : CalendarEvent) (s e current : Int) :
    (emitOccurrence ev s e current).length ≤ 1 := by
  unfold emitOccurrence
  repeat' split
  all_goals simp

/-- The non-override part of the loop output is sorted: each iteration
emits at most one rule-computed occurrence, and its start is strictly
below the midnight from which all later iterations start. -/
theorem genLoop_sorted_filter (ev : CalendarEvent) (s e maxEnd : Int) :
    ∀ (fuel : Nat) (current : Int),
      ((genLoop ev s e maxEnd current fuel).filter fun o => !o.isException).Pairwise
        (fun a b => a.startTime ≤ b.startTime) := by
  intro fuel
  induction fuel with
  | zero => intro current; simp [genLoop]
  | succ n ih =>
    intro current
    simp only [genLoop]
    split
    · rw [List.filter_append, List.pairwise_append]
      refine ⟨pairwise_of_length_le_one
          (le_trans (List.length_filter_le _ _) (emitOccurrence_length_le_one ev s e current)),
        ih (current + dayMs), ?_⟩
      intro x hx y hy
      rw [List.mem_filter] at hx hy
      have hxe : x.isException = false := by simpa using hx.2
      have hye : y.isException = false := by simpa using hy.2
      obtain ⟨hx1, _, _, _⟩ := emitOccurrence_regular hx.1 hxe
      have hylb := (genLoop_regular_props ev s e maxEnd n (current + dayMs) y hy.1 hye).2.2.2
      have hub := occurrenceStart_ub ev current
      have hd := dayStart_add_day current
      omega
    · simp

/-- When the single stored exception is a deletion, or a non-deleted
exception missing one of its replacement times, one loop iteration
emits exactly the exception-free output with that calendar day dropped. -/
theorem emitOccurrence_single_omitted (ev : CalendarEvent)
    (ex1 : RecurrenceException) (s e current : Int)
    (h : ex1.isDeleted = true ∨ ex1.newStartTime = none ∨ ex1.newEndTime = none) :
    emitOccurrence { ev with exceptions := [ex1] } s e current =
      (emitOccurrence { ev with exceptions := [] } s e current).filter
        (fun o => !(isSameDay ex1.exceptionDate o.startTime)) := by
  simp only [emitOccurrence, shouldIncludeDay_set_exceptions,
    occurrenceStart_set_exceptions, durationMs_set_exceptions]
  split
  · split
    · simp only [findDayException, List.find?]
      by_cases hsd : isSameDay ex1.exceptionDate (occurrenceStart ev current)
      · rw [hsd]
        simp only [List.filter]
        rw [hsd]
        rcases h with h | h | h
        · simp [h]
        · cases hdel : ex1.isDeleted <;> simp [h]
        · cases hdel : ex1.isDeleted <;>
            cases hns : ex1.newStartTime <;> simp [h]
      · rw [Bool.of_not_eq_true hsd]
        simp only [List.filter]
        rw [Bool.of_not_eq_true hsd]
        simp
    · simp
  · simp

/-- Lifting `emitOccurrence_single_omitted` through the whole day-scan
loop. -/
theorem genLoop_single_omitted (ev : CalendarEvent) (ex1 : RecurrenceException)
    (s e maxEnd : Int)
    (h : ex1.isDeleted = true ∨ ex1.newStartTime = none ∨ ex1.newEndTime = none) :
    ∀ (fuel : Nat) (current : Int),
      genLoop { ev with exceptions := [ex1] } s e maxEnd current fuel =
        (genLoop { ev with exceptions := [] } s e maxEnd current fuel).filter
          (fun o => !(isSameDay ex1.exceptionDate o.startTime)) := by
  intro fuel
  induction fuel with
  | zero => intro current; simp [genLoop]
  | succ n ih =>
    intro current
    simp only [genLoop]
    split
    · rw [List.filter_append, emitOccurrence_single_omitted ev ex1 s e current h, ih]
    · simp

/-- With pattern Weekly and an empty weekday set, no candidate day
matches, so the loop emits nothing. -/
theorem genLoop_weekly_empty (ev : CalendarEvent) (s e maxEnd : Int)
    (hty : ev.recurrenceType = RecurrenceType.WEEKLY)
    (hdays : ev.recurrenceDays = []) :
    ∀ (fuel : Nat) (current : Int), genLoop ev s e maxEnd current fuel = [] := by
  intro fuel
  induction fuel with
  | zero => intro current; rfl
  | succ n ih =>
    intro current
    simp only [genLoop]
    split
    · have hinc : shouldIncludeDay ev current = false := by
        simp [shouldIncludeDay, hty, hdays, weeklyDayMatch]
      simp [emitOccurrence, hinc, ih]
    · rfl

@[simp] theorem recurrenceType_set_exceptions (ev : CalendarEvent)
    (exs : List RecurrenceException) :
    ({ ev with exceptions := exs } : CalendarEvent).recurrenceType = ev.recurrenceType := rfl

@[simp] theorem isRecurring_set_exceptions (ev : CalendarEvent)
    (exs : List RecurrenceException) :
    ({ ev with exceptions := exs } : CalendarEvent).isRecurring = ev.isRecurring := rfl

@[simp] theorem startTime_set_exceptions (ev : CalendarEvent)
    (exs : List RecurrenceException) :
    ({ ev with exceptions := exs } : CalendarEvent).startTime = ev.startTime := rfl

/-! ## Claims -/

set_option maxRecDepth 100000

/-- C1, counterexample to the claim as stated: with a non-deleted
exception whose `newStartTime` (2024-03-09) lies outside the January
window, the generator returns an occurrence whose start lies outside
`[windowStart, windowEnd]` — the window test is applied to the
rule-computed start only, before the exception's times are
substituted. -/
theorem claim_C1_counterexample :
    (generateRecurringEventOccurrences
        { mondayEvent with exceptions := [rescheduleJan8Exception] }
        windowStartJan windowEndJan).any
      (fun o => !(decide (windowStartJan ≤ o.startTime) &&
        decide (o.startTime ≤ windowEndJan))) = true := by decide

/-- C1, amended: every occurrence that is NOT an exception override has
its start inside `[windowStart, windowEnd]`; an occurrence whose start
was replaced by a non-deleted exception's `newStartTime` may fall
outside the window. -/
theorem claim_C1_theorem (ev : CalendarEvent) (s e : Int) (o : EventOccurrence)
    (ho : o ∈ generateRecurringEventOccurrences ev s e)
    (hex : o.isException = false) :
    s ≤ o.startTime ∧ o.startTime ≤ e := by
  simp only [generateRecurringEventOccurrences] at ho
  split at ho
  · simp at ho
  · have h := genLoop_regular_props ev s e _ _ _ o ho hex
    exact ⟨h.1, h.2.1⟩

/-- C1 witness: the 2024-01-01 occurrence of the Scenario A event is in
the output, is not an exception override, and starts inside the
window. -/
theorem claim_C1_witness :
    (⟨1, 1704099600000, 1704103200000, false, none⟩ : EventOccurrence) ∈
        generateRecurringEventOccurrences mondayEvent windowStartJan windowEndJan ∧
      windowStartJan ≤ (1704099600000 : Int) ∧ (1704099600000 : Int) ≤ windowEndJan :=
  ⟨by decide, claim_C1_theorem mondayEvent windowStartJan windowEndJan
    ⟨1, 1704099600000, 1704103200000, false, none⟩ (by decide) rfl⟩

/-- C3: every generated occurrence not overridden by a non-deleted
exception keeps the owning event's fixed duration
`endTime − startTime`. -/
theorem claim_C3_theorem (ev : CalendarEvent) (s e : Int) (o : EventOccurrence)
    (ho : o ∈ generateRecurringEventOccurrences ev s e)
    (hex : o.isException = false) :
    o.endTime - o.startTime = ev.endTime - ev.startTime := by
  simp only [generateRecurringEventOccurrences] at ho
  split at ho
  · simp at ho
  · have h := (genLoop_regular_props ev s e _ _ _ o ho hex).2.2.1
    simp only [durationMs] at h
    omega

/-- C3 witness: the 2024-01-08 occurrence of the Scenario A event has
the event's one-hour duration. -/
theorem claim_C3_witness :
    (⟨1, 1704704400000, 1704708000000, false, none⟩ : EventOccurrence) ∈
        generateRecurringEventOccurrences mondayEvent windowStartJan windowEndJan ∧
      (1704708000000 : Int) - 1704704400000 =
        mondayEvent.endTime - mondayEvent.startTime :=
  ⟨by decide, claim_C3_theorem mondayEvent windowStartJan windowEndJan
    ⟨1, 1704704400000, 1704708000000, false, none⟩ (by decide) rfl⟩

/-- C4: adding one deletion exception produces exactly the
exception-free output with every occurrence of that exception's
calendar day removed; all other days are unaffected. -/
theorem claim_C4_theorem (ev : CalendarEvent) (s e : Int)
    (ex1 : RecurrenceException) (h : ex1.isDeleted = true) :
    generateRecurringEventOccurrences { ev with exceptions := [ex1] } s e =
      (generateRecurringEventOccurrences { ev with exceptions := [] } s e).filter
        (fun o => !(isSameDay ex1.exceptionDate o.startTime)) := by
  simp only [generateRecurringEventOccurrences, recurrenceType_set_exceptions,
    isRecurring_set_exceptions, startTime_set_exceptions]
  split
  · simp
  · exact genLoop_single_omitted ev ex1 s e _ (Or.inl h) _ _

/-- C4 witness, Scenario B: deleting 2024-01-08 yields exactly the four
other January Mondays, 2024-01-08 absent. -/
theorem claim_C4_witness :
    deleteJan8Exception.isDeleted = true ∧
      generateRecurringEventOccurrences
          { mondayEvent with exceptions := [deleteJan8Exception] }
          windowStartJan windowEndJan =
        [⟨1, 1704099600000, 1704103200000, false, none⟩,
         ⟨1, 1705309200000, 1705312800000, false, none⟩,
         ⟨1, 1705914000000, 1705917600000, false, none⟩,
         ⟨1, 1706518800000, 1706522400000, false, none⟩] :=
  ⟨rfl, (claim_C4_theorem mondayEvent windowStartJan windowEndJan
    deleteJan8Exception rfl).trans (by decide)⟩

/-- C5, counterexample to the claim as stated: rescheduling the
2024-01-08 occurrence to 2024-03-09 leaves an output sequence that is
NOT non-decreasing by start (the override sits between the 2024-01-01
and 2024-01-15 occurrences). -/
theorem claim_C5_counterexample :
    ¬ List.Pairwise (fun a b => a.startTime ≤ b.startTime)
      (generateRecurringEventOccurrences
        { mondayEvent with exceptions := [rescheduleJan8Exception] }
        windowStartJan windowEndJan) := by decide

/-- C5, amended: the subsequence of occurrences whose starts were not
replaced by an exception is ordered non-decreasing by start instant;
an exception-replaced start may break the ordering of the full
sequence. -/
theorem claim_C5_theorem (ev : CalendarEvent) (s e : Int) :
    ((generateRecurringEventOccurrences ev s e).filter
        (fun o => !o.isException)).Pairwise
      (fun a b => a.startTime ≤ b.startTime) := by
  simp only [generateRecurringEventOccurrences]
  split
  · simp
  · exact genLoop_sorted_filter ev s e _ _ _

/-- C6, Scenario A: the weekly Monday event expanded over
`[2024-01-01T00:00Z, 2024-01-31T00:00Z]` yields exactly the five January
Mondays, each 09:00–10:00Z. -/
theorem claim_C6_theorem :
    generateRecurringEventOccurrences mondayEvent windowStartJan windowEndJan =
      [⟨1, 1704099600000, 1704103200000, false, none⟩,
       ⟨1, 1704704400000, 1704708000000, false, none⟩,
       ⟨1, 1705309200000, 1705312800000, false, none⟩,
       ⟨1, 1705914000000, 1705917600000, false, none⟩,
       ⟨1, 1706518800000, 1706522400000, false, none⟩] := by decide

/-- C2, counterexample to the claim as stated: for the zero-duration
interval `[t, t]` against `[t, t + 1h]` (a direct touch: the first
interval's end equals the second's start), `eventsConflict` reports a
conflict although `aStart < bEnd && bStart < aEnd` is false. -/
theorem claim_C2_counterexample :
    eventsConflict 1704099600000 1704099600000 1704099600000 1704103200000 = true ∧
      ¬((1704099600000 : Int) < 1704103200000 ∧
        (1704099600000 : Int) < 1704099600000) := by decide

/-- C2, amended: for intervals of positive duration `eventsConflict`
decides exactly `aStart < bEnd ∧ bStart < aEnd` (so a direct touch is
never a conflict there); the helper `doTimeRangesOverlap` decides that
formula for all intervals, zero-duration ones included.  The claim
fails only for zero-duration intervals fed to `eventsConflict`. -/
theorem claim_C2_theorem :
    (∀ a1 a2 b1 b2 : Int, a1 < a2 → b1 < b2 →
        (eventsConflict a1 a2 b1 b2 = true ↔ (a1 < b2 ∧ b1 < a2))) ∧
      (∀ s1 e1 s2 e2 : Int,
        doTimeRangesOverlap s1 e1 s2 e2 = true ↔ (s1 < e2 ∧ s2 < e1)) := by
  constructor
  · intro a1 a2 b1 b2 h1 h2
    simp only [eventsConflict, Bool.or_eq_true, Bool.and_eq_true,
      decide_eq_true_eq, ge_iff_le]
    omega
  · intro s1 e1 s2 e2
    simp [doTimeRangesOverlap]

/-- C2 witness: two overlapping one-hour intervals on 2024-01-01
conflict, by the amended equivalence. -/
theorem claim_C2_witness :
    (1704099600000 : Int) < 1704103200000 ∧ (1704101400000 : Int) < 1704105000000 ∧
      (eventsConflict 1704099600000 1704103200000 1704101400000 1704105000000 = true ↔
        ((1704099600000 : Int) < 1704105000000 ∧ (1704101400000 : Int) < 1704103200000)) :=
  ⟨by decide, by decide,
    claim_C2_theorem.1 1704099600000 1704103200000 1704101400000 1704105000000
      (by decide) (by decide)⟩

/-- C7, counterexample to the claim as stated: an update supplying only
a new start of 5000 against a stored pair (1000, 2000) passes the
controller's validation and persists the pair (5000, 2000), whose end is
not after its start. -/
theorem claim_C7_counterexample :
    applyUpdateTimes 1000 2000 (some 5000) none = Except.ok (5000, 2000) ∧
      (2000 : Int) ≤ 5000 :=
  ⟨rfl, by decide⟩

/-- C7, amended: event create and exception reschedule reject exactly
when the end is not strictly after the start, but event update runs
that check only when BOTH instants are supplied; an update changing a
single instant is accepted unconditionally and merges it with the
stored other instant, so a persisted pair with end ≤ start is
possible. -/
theorem claim_C7_theorem :
    (∀ s e : Int, (validateCreateTimes s e).isOk = true ↔ s < e) ∧
      (∀ ns ne : Int,
        (validateExceptionTimes false (some ns) (some ne)).isOk = true ↔ ns < ne) ∧
      (∀ es ee ns ne : Int,
        (applyUpdateTimes es ee (some ns) (some ne)).isOk = true ↔ ns < ne) ∧
      (∀ es ee ns : Int, applyUpdateTimes es ee (some ns) none = Except.ok (ns, ee)) ∧
      (∀ es ee ne : Int, applyUpdateTimes es ee none (some ne) = Except.ok (es, ne)) := by
  refine ⟨?_, ?_, ?_, ?_, ?_⟩
  · intro s e
    by_cases h : e ≤ s
    · simp [validateCreateTimes, h, Except.isOk, Except.toBool]
    · simp [validateCreateTimes, h, Except.isOk, Except.toBool]
      omega
  · intro ns ne
    by_cases h : ne ≤ ns
    · simp [validateExceptionTimes, h, Except.isOk, Except.toBool]
    · simp [validateExceptionTimes, h, Except.isOk, Except.toBool]
      omega
  · intro es ee ns ne
    by_cases h : ne ≤ ns
    · simp [applyUpdateTimes, h, Except.isOk, Except.toBool]
    · simp [applyUpdateTimes, h, Except.isOk, Except.toBool]
      omega
  · intro es ee ns
    rfl
  · intro es ee ne
    rfl

/-- C8, counterexample to the claim as stated: the controller variant of
`createEventException` at eventController.ts lines 192-247 performs no
occurrence-validity check: for the weekly Monday event it creates an
exception dated Tuesday 2024-01-02, a day on which the rule generates no
occurrence, instead of failing. -/
theorem claim_C8_counterexample :
    isValidEventOccurrence mondayEvent 1704153600000 = false ∧
      createExceptionUnchecked mondayEvent 1704153600000 true none none =
        Except.ok { id := 0, exceptionDate := 1704153600000, isDeleted := true,
                    newStartTime := none, newEndTime := none } :=
  ⟨by decide, rfl⟩

/-- C8, amended: only the owner-keyed controller variant
(eventController.ts lines 504-572) enforces the precondition: it fails
whenever `isValidEventOccurrence` rejects the date (so no record is
created), and a deletion exception on a valid occurrence day is
created; the other controller variant creates the exception without any
validity check. -/
theorem claim_C8_theorem (ev : CalendarEvent) (date : Int) :
    (∀ (isDel : Bool) (ns ne : Option Int),
        isValidEventOccurrence ev date = false →
        ∃ m, createExceptionChecked ev date isDel ns ne = Except.error m) ∧
      (ev.isRecurring = true → isValidEventOccurrence ev date = true →
        createExceptionChecked ev date true none none =
          Except.ok { id := 0, exceptionDate := date, isDeleted := true,
                      newStartTime := none, newEndTime := none }) := by
  constructor
  · intro isDel ns ne hval
    unfold createExceptionChecked
    split
    · exact ⟨_, rfl⟩
    · cases hv : validateExceptionTimes isDel ns ne with
      | error m => exact ⟨m, by simp⟩
      | ok pr =>
        obtain ⟨ps, pe⟩ := pr
        simp [hval]
  · intro hrec hval
    unfold createExceptionChecked
    simp [hrec, validateExceptionTimes, hval]

/-- C8 witness: the checked variant rejects the invalid Tuesday
2024-01-02 and accepts a deletion on the valid Monday 2024-01-08. -/
theorem claim_C8_witness :
    (isValidEventOccurrence mondayEvent 1704153600000 = false ∧
        ∃ m, createExceptionChecked mondayEvent 1704153600000 true none none =
          Except.error m) ∧
      (mondayEvent.isRecurring = true ∧
        isValidEventOccurrence mondayEvent 1704672000000 = true ∧
        createExceptionChecked mondayEvent 1704672000000 true none none =
          Except.ok { id := 0, exceptionDate := 1704672000000, isDeleted := true,
                      newStartTime := none, newEndTime := none }) :=
  ⟨⟨by decide, (claim_C8_theorem mondayEvent 1704153600000).1 true none none (by decide)⟩,
    ⟨rfl, by decide, (claim_C8_theorem mondayEvent 1704672000000).2 rfl (by decide)⟩⟩

/-- C9: a weekly event with an empty `recurrenceDays` set generates the
empty occurrence sequence for every window (the day-scan loop runs its
bounded course matching no day). -/
theorem claim_C9_theorem (ev : CalendarEvent) (s e : Int)
    (hty : ev.recurrenceType = RecurrenceType.WEEKLY)
    (hdays : ev.recurrenceDays = []) :
    generateRecurringEventOccurrences ev s e = [] := by
  simp only [generateRecurringEventOccurrences]
  split
  · rfl
  · exact genLoop_weekly_empty ev s e _ hty hdays _ _

/-- C9 witness: the concrete weekly event with no recurrence days
yields no occurrences over the January window. -/
theorem claim_C9_witness :
    weeklyNoDaysEvent.recurrenceType = RecurrenceType.WEEKLY ∧
      weeklyNoDaysEvent.recurrenceDays = [] ∧
      generateRecurringEventOccurrences weeklyNoDaysEvent windowStartJan windowEndJan = [] :=
  ⟨rfl, rfl, claim_C9_theorem weeklyNoDaysEvent windowStartJan windowEndJan rfl rfl⟩

/-- C10: a matching exception with `isDeleted = false` but a null
`newStartTime` or `newEndTime` suppresses that day's occurrence
entirely: the output is the exception-free output with that calendar
day dropped (nothing is emitted in its place). -/
theorem claim_C10_theorem (ev : CalendarEvent) (s e : Int)
    (ex1 : RecurrenceException) (_h1 : ex1.isDeleted = false)
    (h2 : ex1.newStartTime = none ∨ ex1.newEndTime = none) :
    generateRecurringEventOccurrences { ev with exceptions := [ex1] } s e =
      (generateRecurringEventOccurrences { ev with exceptions := [] } s e).filter
        (fun o => !(isSameDay ex1.exceptionDate o.startTime)) := by
  simp only [generateRecurringEventOccurrences, recurrenceType_set_exceptions,
    isRecurring_set_exceptions, startTime_set_exceptions]
  split
  · simp
  · exact genLoop_single_omitted ev ex1 s e _ (Or.inr h2) _ _

/-- C10 witness: a non-deleted exception for 2024-01-08 with a null
`newStartTime` removes that Monday: four occurrences remain, none on
2024-01-08. -/
theorem claim_C10_witness :
    incompleteJan8Exception.isDeleted = false ∧
      incompleteJan8Exception.newStartTime = none ∧
      generateRecurringEventOccurrences
          { mondayEvent with exceptions := [incompleteJan8Exception] }
          windowStartJan windowEndJan =
        [⟨1, 1704099600000, 1704103200000, false, none⟩,
         ⟨1, 1705309200000, 1705312800000, false, none⟩,
         ⟨1, 1705914000000, 1705917600000, false, none⟩,
         ⟨1, 1706518800000, 1706522400000, false, none⟩] :=
  ⟨rfl, rfl, (claim_C10_theorem mondayEvent windowStartJan windowEndJan
    incompleteJan8Exception rfl (Or.inl rfl)).trans (by decide)⟩
